import Mathlib

/-
Verification of the slide-index state machine of the hannemann/grid carousel.

The repository contains two overlapping component variants plus an
auto-advance companion:
  * src/js/Carousel/index.js  -- the windowed variant (namespace `Carousel`);
    indices, direction, duration, timing function and the moving flag are
    stored in CSS custom properties / class names, which we model as plain
    fields; event dispatches are modelled as an append-only event log.
  * src/js/carousel.js        -- the simpler gesture-driven variant
    (namespace `CJ`); it dispatches no events.
  * src/unnamed/part_000      -- CarouselAutoMove (namespace `Auto`),
    driving the `Carousel` variant.

Machine integers of the source are JavaScript numbers used only at integer
values here, so they are embedded as `Int`.
-/

set_option maxHeartbeats 1000000

/-- Payload of a dispatched lifecycle event, mirroring the `eventData`
getter of src/js/Carousel/index.js (prev, cur, next, dir, offset,
transitionDuration, transitionTimingFunction, transitionProperty). -/
structure EvData where
  prev : Int
  cur : Int
  next : Int
  dir : Int
  offset : Int
  duration : Int
  timingFunction : String
  transitionProperty : String
deriving DecidableEq, Repr

/-- A dispatched lifecycle event: before / start / end / change
(`slider-transitionbefore` etc.). `fin` stands for the end event. -/
inductive Ev where
  | before (d : EvData)
  | start (d : EvData)
  | fin (d : EvData)
  | change (d : EvData)
deriving DecidableEq, Repr

/-- State of the src/js/Carousel/index.js component. CSS custom properties
(--current, --previous, --next, --move, --duration, --timing-function,
--transition-property, --visible) and the `moving` class become fields;
`events` is the log of dispatched CustomEvents. -/
structure State where
  max : Int
  visible : Int
  cur : Int
  prev : Int
  next : Int
  dir : Int
  moving : Bool
  duration : Int
  timingFunction : String
  defaultDuration : Int
  defaultTimingFunction : String
  transition : Bool
  events : List Ev
deriving DecidableEq, Repr

namespace Carousel

/-- The `eventData` getter: snapshot of the current live values. -/
def eventData (s : State) : EvData :=
  { prev := s.prev, cur := s.cur, next := s.next, dir := s.dir, offset := 0,
    duration := s.duration, timingFunction := s.timingFunction,
    transitionProperty := if s.transition then "" else "none" }

/-- Dispatching a CustomEvent appends it to the log. -/
def emit (e : Ev) (s : State) : State := { s with events := s.events ++ [e] }

/-- The `duration` setter: stores the value, then dispatches `change`. -/
def setDuration (d : Int) (s : State) : State :=
  emit (.change (eventData { s with duration := d })) { s with duration := d }

/-- The `timingFunction` setter: stores the value, then dispatches `change`. -/
def setTimingFunction (fn : String) (s : State) : State :=
  emit (.change (eventData { s with timingFunction := fn }))
    { s with timingFunction := fn }

/-- The `transition` setter: stores the flag, then dispatches `change`. -/
def setTransition (t : Bool) (s : State) : State :=
  emit (.change (eventData { s with transition := t })) { s with transition := t }

/-- Index arithmetic of `setCur` (identical in both source variants):
forward gives `cur + 1 > max ? 0 : cur + 1`, backward gives
`cur - 1 < 0 ? max : cur - 1`. -/
def curStep (cur dir max : Int) : Int :=
  if dir = 1 then (if cur + 1 > max then 0 else cur + 1)
  else (if cur - 1 < 0 then max else cur - 1)

/-- Index arithmetic of `setNext` in src/js/Carousel/index.js: forward gives
`cur + visible > max ? cur + visible - 1 - max : cur + visible`, backward
gives `cur - 1 < 0 ? max : cur - 1`. -/
def nextStep (cur dir visible max : Int) : Int :=
  if dir = 1 then
    (if cur + visible > max then cur + visible - 1 - max else cur + visible)
  else (if cur - 1 < 0 then max else cur - 1)

/-- Index arithmetic of `setPrev` in src/js/Carousel/index.js: the mirror
image of `nextStep`. -/
def prevStep (cur dir visible max : Int) : Int :=
  if dir = 1 then (if cur - 1 < 0 then max else cur - 1)
  else (if cur + visible > max then cur + visible - 1 - max else cur + visible)

/-- `setCur` mutates only the `cur` custom property (class toggles are
visual only). -/
def setCur (s : State) : State := { s with cur := curStep s.cur s.dir s.max }

/-- `setVis` toggles the `visible` classes and per-slide custom properties
only; it touches no modelled state. -/
def setVis (s : State) : State := s

/-- `setNext` mutates only the `next` custom property. -/
def setNext (s : State) : State :=
  { s with next := nextStep s.cur s.dir s.visible s.max }

/-- `setPrev` mutates only the `prev` custom property. -/
def setPrev (s : State) : State :=
  { s with prev := prevStep s.cur s.dir s.visible s.max }

/-- The `move` method: dispatch `before`, set `moving` (the class toggle;
the transitionend listener it installs is modelled by `endMove` below),
then either the special two-slide path (disable transitions for a frame,
re-enable, update indices) or the general path (update indices, with
`setVis` in between), and finally dispatch `start`. -/
def move (s : State) : State :=
  let s1 := emit (.before (eventData s)) s
  let s2 := { s1 with moving := true }
  if s.max = 1 then
    let s3 := setTransition true (setTransition false s2)
    let s4 := setPrev (setNext (setCur s3))
    emit (.start (eventData s4)) s4
  else
    let s4 := setPrev (setNext (setVis (setCur s2)))
    emit (.start (eventData s4)) s4

/-- The `reset` closure installed by the `moving` setter: restore duration
and timing function to the component defaults, clear `moving`, dispatch
`end`. -/
def reset (s : State) : State :=
  let s1 := setTimingFunction s.defaultTimingFunction
    (setDuration s.defaultDuration s)
  emit (.fin (eventData { s1 with moving := false })) { s1 with moving := false }

/-- Effect of the transitionend notification for a committed step: for
`max == 1` the shared wrap slide is first silently re-homed (transitions
off for a frame, then on again), then `reset` runs; otherwise `reset` runs
directly. -/
def endMove (s : State) : State :=
  if s.max = 1 then reset (setTransition true (setTransition false s)) else reset s

/-- The public `back` method: no-op while `moving` or with a single slide,
otherwise set the direction and move. -/
def back (s : State) : State :=
  if s.moving = true ∨ s.max = 0 then s else move { s with dir := -1 }

/-- The public `fwd` method: no-op while `moving` or with a single slide,
otherwise set the direction and move. -/
def fwd (s : State) : State :=
  if s.moving = true ∨ s.max = 0 then s else move { s with dir := 1 }

/-- The `moveRecursive` chain with each transitionend awaited. One call
sets duration 60 and "linear", then: if the step about to be committed is
not yet the target, commits it and (after transitionend ran `reset` and
the next animation frame arrived) recurses; if it is the final step,
switches to "ease-out" and the default duration before committing, and on
its transitionend restores the timing function (that listener was
registered before the one from the `moving` setter, so it runs first).
`fuel` mirrors the number of remaining steps; the real recursion
terminates because the distance to the target shrinks by one per step. -/
def moveRecursiveChain : Nat → Int → State → State
  | 0, _, s => s
  | f + 1, n, s =>
    let nxt := if s.dir = 1 then s.cur + 1 else s.cur - 1
    let s1 := setTimingFunction "linear" (setDuration 60 s)
    if nxt = n then
      let s2 := setDuration s1.defaultDuration (setTimingFunction "ease-out" s1)
      let s3 := move s2
      endMove (setTimingFunction s3.defaultTimingFunction s3)
    else
      moveRecursiveChain f n (endMove (move s1))

/-- The public `goto` method of src/js/Carousel/index.js: no-op while
moving, with a single slide, for out-of-range targets, or for the current
index; otherwise set the direction by plain comparison and run the chain
(the fuel equals the number of steps the chain takes). -/
def goto (n : Int) (s : State) : State :=
  if s.moving = true ∨ s.max = 0 then s
  else if n < 0 ∨ n > s.max then s
  else if n = s.cur then s
  else
    moveRecursiveChain (n - s.cur).natAbs n
      { s with dir := if n > s.cur then 1 else -1 }

end Carousel

/-- State of the src/js/carousel.js component. This variant stores the
indices and animation parameters in custom properties too, toggles a
`moving` class, and dispatches no events at all. -/
structure CJState where
  max : Int
  cur : Int
  prev : Int
  next : Int
  dir : Int
  moving : Bool
  duration : Int
  timingFunction : String
  defaultDuration : Int
  defaultTimingFunction : String
  transition : Bool
deriving DecidableEq, Repr

namespace CJ

/-- `setCur` of src/js/carousel.js: same index arithmetic as the other
variant. -/
def setCur (s : CJState) : CJState :=
  { s with cur := Carousel.curStep s.cur s.dir s.max }

/-- `setNext` of src/js/carousel.js: forward gives
`cur + 1 > max ? 0 : cur + 1`, backward gives `cur - 1 < 0 ? max : cur - 1`
(prev and next exchange roles when the direction flips). -/
def setNext (s : CJState) : CJState :=
  { s with next :=
      if s.dir = 1 then (if s.cur + 1 > s.max then 0 else s.cur + 1)
      else (if s.cur - 1 < 0 then s.max else s.cur - 1) }

/-- `setPrev` of src/js/carousel.js: the mirror image of its `setNext`. -/
def setPrev (s : CJState) : CJState :=
  { s with prev :=
      if s.dir = 1 then (if s.cur - 1 < 0 then s.max else s.cur - 1)
      else (if s.cur + 1 > s.max then 0 else s.cur + 1) }

/-- `move` of src/js/carousel.js: just `setCur().setNext().setPrev()`;
this variant never sets the `moving` flag itself. -/
def move (s : CJState) : CJState := setPrev (setNext (setCur s))

/-- The `transition` setter of src/js/carousel.js (no event dispatch). -/
def setTransition (t : Bool) (s : CJState) : CJState := { s with transition := t }

/-- `back` of src/js/carousel.js: guarded by `moving` only. -/
def back (s : CJState) : CJState :=
  if s.moving = true then s else move { s with dir := -1 }

/-- `fwd` of src/js/carousel.js: guarded by `moving` only. -/
def fwd (s : CJState) : CJState :=
  if s.moving = true then s else move { s with dir := 1 }

/-- The `moveRecursive` chain of src/js/carousel.js with each
transitionend awaited: commit a step and recurse until the step about to
be committed is the target; on the final step switch to "ease-out" and
the default duration before committing, and restore the timing function on
its transitionend. The fuel mirrors the linear distance to the target;
for targets reachable by repeated unit steps this is exact, while the real
code never terminates for unreachable (out-of-range) targets. -/
def moveRecursiveChain : Nat → Int → CJState → CJState
  | 0, _, s => s
  | f + 1, n, s =>
    let nxt := if s.dir = 1 then s.cur + 1 else s.cur - 1
    if nxt = n then
      let s2 := { s with timingFunction := "ease-out" }
      let s3 := { s2 with duration := s2.defaultDuration }
      let s4 := move s3
      { s4 with timingFunction := s4.defaultTimingFunction }
    else
      moveRecursiveChain f n (move s)

/-- `goto` of src/js/carousel.js: only `n !== this.cur` is checked — no
`moving` guard and no range validation. It sets the direction by plain
comparison, overrides duration 60 and "linear" once, and starts the
chain. -/
def goto (n : Int) (s : CJState) : CJState :=
  if n = s.cur then s
  else
    moveRecursiveChain (n - s.cur).natAbs n
      { s with dir := if n > s.cur then 1 else -1,
               duration := 60, timingFunction := "linear" }

end CJ

/-- Gesture-session state of src/js/carousel.js: the carousel itself, the
recorded `pointerStart` page coordinate (none models null), and whether
`slides[cur].style.transform` currently holds a non-empty value (set by
the `pxOffset` preview, cleared when the transforms are reset). -/
structure GState where
  c : CJState
  pointerStart : Option Int
  curT : Bool
deriving DecidableEq, Repr

namespace Gesture

/-- JavaScript truthiness of the `pointerStart` number-or-null field:
null and 0 are falsy. -/
def truthy : Option Int → Bool
  | none => false
  | some v => v != 0

/-- Numeric coercion of `pointerStart` as used in `e.pageX - this.pointerStart`:
null coerces to 0. -/
def psVal : Option Int → Int
  | none => 0
  | some v => v

/-- `pointerDown`: record the page coordinate and disable transitions so
the preview follows the pointer. -/
def pointerDown (x : Int) (g : GState) : GState :=
  { g with pointerStart := some x, c := CJ.setTransition false g.c }

/-- `pointerMove`: only while a (truthy) `pointerStart` exists; with a
nonzero delta, set the direction from the drag sign (right drag previews
`back`), recompute prev and next, and apply the per-pixel preview offset
(which leaves a non-empty transform on the current slide). -/
def pointerMove (x : Int) (g : GState) : GState :=
  if truthy g.pointerStart = true then
    let delta := x - psVal g.pointerStart
    if delta = 0 then g
    else
      let c1 := { g.c with dir := if delta > 0 then -1 else 1 }
      { g with c := CJ.setNext (CJ.setPrev c1), curT := true }
  else g

/-- `pointerUp`: re-enable transitions; if the current slide still carries
a preview transform, reset the transforms and commit one step chosen by
the sign of the release delta (positive commits `back`, otherwise `fwd`);
finally clear `pointerStart`. -/
def pointerUp (x : Int) (g : GState) : GState :=
  let c1 := CJ.setTransition true g.c
  if g.curT = true then
    let c2 := if x - psVal g.pointerStart > 0 then CJ.back c1 else CJ.fwd c1
    { g with c := c2, curT := false, pointerStart := none }
  else
    { g with c := c1, pointerStart := none }

/-- One full drag session: pointer down at `x0`, a sequence of pointer
moves, pointer up at `xu`. -/
def session (x0 : Int) (moves : List Int) (xu : Int) (g : GState) : GState :=
  pointerUp xu (moves.foldl (fun st xi => pointerMove xi st) (pointerDown x0 g))

end Gesture

/-- State of CarouselAutoMove (src/unnamed/part_000) together with the
carousel it drives. `pending` counts the setTimeout callbacks that are
scheduled and not yet fired or cleared; `handle` is the
`_autoSlideInterval` field: none when undefined, `some live` when it holds
a timer id whose callback is still pending iff `live`. The cfg fields are
the parsed data attributes; none models an absent or unparseable (NaN)
value. -/
structure AutoState where
  carousel : State
  pending : Nat
  handle : Option Bool
  hover : Bool
  cfgInterval : Option Int
  cfgDuration : Option Int
  cfgTiming : Option String
  cfgOnHover : Bool
  cfgDir : String
deriving DecidableEq, Repr

namespace Auto

/-- The `interval` getter: `parseInt` of the attribute; since
`typeof parseInt(x)` is always "number", the guard reduces to the
positivity test and an absent attribute falls back to 5000. -/
def interval (a : AutoState) : Int :=
  match a.cfgInterval with
  | some i => if i > 0 then i else 5000
  | none => 5000

/-- The `duration` getter with its 1000 fallback. -/
def duration (a : AutoState) : Int :=
  match a.cfgDuration with
  | some d => if d > 0 then d else 1000
  | none => 1000

/-- The `timingFunction` getter: the attribute value unless absent or
empty (falsy), else "ease-in-out". -/
def timingFunction (a : AutoState) : String :=
  match a.cfgTiming with
  | some t => if t = "" then "ease-in-out" else t
  | none => "ease-in-out"

/-- `stop`: if `_autoSlideInterval` is defined, clearTimeout it (removing
its callback from the pending set when still live) and delete the field;
otherwise do nothing. -/
def stop (a : AutoState) : AutoState :=
  match a.handle with
  | none => a
  | some live =>
    { a with pending := if live then a.pending - 1 else a.pending, handle := none }

/-- `start`: when the interval is truthy and the carousel is not moving,
first `stop`, then schedule one single-shot timeout and store its id. -/
def start (a : AutoState) : AutoState :=
  if interval a ≠ 0 ∧ a.carousel.moving = false then
    let a1 := stop a
    { a1 with pending := a1.pending + 1, handle := some true }
  else a

/-- Expiry of the scheduled timeout (only possible while its callback is
still pending): the callback re-checks `moving`; when clear, it applies
the auto duration and timing-function overrides, sets the direction from
`data-auto-dir`, and commits one step via the carousel `move`. -/
def fire (a : AutoState) : AutoState :=
  if a.handle = some true then
    let a1 := { a with pending := a.pending - 1, handle := some false }
    if a1.carousel.moving = false then
      let c1 := Carousel.setTimingFunction (timingFunction a)
        (Carousel.setDuration (duration a) a1.carousel)
      let c2 : State := { c1 with dir := if a.cfgDir = "back" then -1 else 1 }
      { a1 with carousel := Carousel.move c2 }
    else a1
  else a

/-- The `slider-transitionbefore` listener installed by `initListeners`:
it is `stop` itself. -/
def onBefore (a : AutoState) : AutoState := stop a

end Auto

/-- The initial loop bound and element accesses of `initSlides` in
src/js/Carousel/index.js, as a fallible computation: with zero slides the
unguarded `this.slides[this.cur].classList.add(...)` access (cur = 0)
fails on undefined, which we model as none; every other element access is
either guarded by `max > 1` or uses optional chaining. The result is the
(prev, cur, next) triple the initializer establishes. -/
def initSlidesIdx (slideCount : Nat) (visible : Int) : Option (Int × Int × Int) :=
  let max : Int := (slideCount : Int) - 1
  let prev := max
  if slideCount = 0 then none
  else
    let i : Int := if 1 < visible ∧ 1 < max then min visible max else 1
    some (prev, 0, i)

/-- The constructor of src/js/Carousel/index.js as far as it can fail:
it reads `data-visible` (defaulting 1), runs `initSlides`, and only when
`slides.length > visible` initializes direction, timing function, duration
and the observer (none of which touch a slide element). -/
def constructIdx (slideCount : Nat) (visible : Int) : Option (Int × Int × Int) :=
  initSlidesIdx slideCount visible

/-- `findIndex` over the slide elements of src/js/carousel.js, abstracting
each slide by whether it carries the class the predicate looks for:
the index of the first match, or -1. -/
def findIdx (l : List Bool) : Int :=
  match l.findIdx? id with
  | some i => (i : Int)
  | none => -1

/-- The constructor of src/js/carousel.js: set duration and timing
function from the options, run `initSlides` (three findIndex calls and
`max = slides.length - 1`, none of which can fail — findIndex yields -1 on
an empty list), and skip pointer/observer/controls wiring unless at least
two slides exist. It never rejects its input; with zero slides it returns
an instance whose indices are all the -1 sentinel. The direction property
starts unset (parseInt of the empty custom property is NaN); 0 stands for
that unset sentinel, which the source never reads before assigning. -/
def constructCJ (prevCls curCls nextCls : List Bool) (optTiming : String)
    (optDuration : Int) : Option CJState :=
  some
    { max := (curCls.length : Int) - 1,
      cur := findIdx curCls,
      prev := findIdx prevCls,
      next := findIdx nextCls,
      dir := 0,
      moving := false,
      duration := optDuration,
      timingFunction := optTiming,
      defaultDuration := optDuration,
      defaultTimingFunction := optTiming,
      transition := true }



/-! Arithmetic facts about the wraparound index step functions. -/

namespace Carousel

theorem curStep_eq (cur max dir : Int) (h0 : 0 ≤ cur) (h1 : cur ≤ max)
    (hd : dir = 1 ∨ dir = -1) :
    curStep cur dir max = (cur + dir) % (max + 1) := by
  rcases hd with hd | hd <;> subst hd <;> unfold curStep
  · rw [if_pos rfl]
    by_cases h : cur + 1 > max
    · rw [if_pos h]
      have hc : cur = max := by omega
      subst hc
      rw [Int.emod_self]
    · rw [if_neg h, Int.emod_eq_of_lt (by omega) (by omega)]
  · rw [if_neg (by norm_num)]
    by_cases h : cur - 1 < 0
    · rw [if_pos h]
      have hc : cur = 0 := by omega
      subst hc
      rw [show ((0 : Int) + -1) = max + (max + 1) * (-1) from by ring,
        Int.add_mul_emod_self_left max (max + 1) (-1),
        Int.emod_eq_of_lt (by omega) (by omega)]
    · rw [if_neg h, show (cur + -1) = cur - 1 from by ring,
        Int.emod_eq_of_lt (by omega) (by omega)]

theorem curStep_bounds (cur max dir : Int) (h0 : 0 ≤ cur) (h1 : cur ≤ max) :
    0 ≤ curStep cur dir max ∧ curStep cur dir max ≤ max := by
  unfold curStep
  split <;> split <;> omega

theorem nextStep_fwd_eq (cur visible max : Int) (h0 : 0 ≤ cur) (h1 : cur ≤ max)
    (hv : 1 ≤ visible) (hvm : visible ≤ max) :
    nextStep cur 1 visible max = (cur + visible) % (max + 1) := by
  unfold nextStep
  rw [if_pos rfl]
  by_cases h : cur + visible > max
  · rw [if_pos h]
    have h3 : (cur + visible) % (max + 1) = cur + visible - 1 - max := by
      conv_lhs => rw [show (cur + visible) =
        (cur + visible - 1 - max) + (max + 1) * 1 from by ring]
      rw [Int.add_mul_emod_self_left (cur + visible - 1 - max) (max + 1) 1,
        Int.emod_eq_of_lt (by omega) (by omega)]
    rw [h3]
  · rw [if_neg h, Int.emod_eq_of_lt (by omega) (by omega)]

theorem nextStep_back_eq (cur visible max : Int) (h0 : 0 ≤ cur) (h1 : cur ≤ max) :
    nextStep cur (-1) visible max = (cur - 1) % (max + 1) := by
  unfold nextStep
  rw [if_neg (by norm_num)]
  by_cases h : cur - 1 < 0
  · rw [if_pos h]
    have hc : cur = 0 := by omega
    subst hc
    rw [show ((0 : Int) - 1) = max + (max + 1) * (-1) from by ring,
      Int.add_mul_emod_self_left max (max + 1) (-1),
      Int.emod_eq_of_lt (by omega) (by omega)]
  · rw [if_neg h, Int.emod_eq_of_lt (by omega) (by omega)]

theorem prevStep_fwd_eq (cur visible max : Int) (h0 : 0 ≤ cur) (h1 : cur ≤ max) :
    prevStep cur 1 visible max = (cur - 1) % (max + 1) := by
  unfold prevStep
  rw [if_pos rfl]
  by_cases h : cur - 1 < 0
  · rw [if_pos h]
    have hc : cur = 0 := by omega
    subst hc
    rw [show ((0 : Int) - 1) = max + (max + 1) * (-1) from by ring,
      Int.add_mul_emod_self_left max (max + 1) (-1),
      Int.emod_eq_of_lt (by omega) (by omega)]
  · rw [if_neg h, Int.emod_eq_of_lt (by omega) (by omega)]

theorem prevStep_back_eq (cur visible max : Int) (h0 : 0 ≤ cur) (h1 : cur ≤ max)
    (hv : 1 ≤ visible) (hvm : visible ≤ max) :
    prevStep cur (-1) visible max = (cur + visible) % (max + 1) := by
  unfold prevStep
  rw [if_neg (by norm_num)]
  by_cases h : cur + visible > max
  · rw [if_pos h]
    have h3 : (cur + visible) % (max + 1) = cur + visible - 1 - max := by
      conv_lhs => rw [show (cur + visible) =
        (cur + visible - 1 - max) + (max + 1) * 1 from by ring]
      rw [Int.add_mul_emod_self_left (cur + visible - 1 - max) (max + 1) 1,
        Int.emod_eq_of_lt (by omega) (by omega)]
    rw [h3]
  · rw [if_neg h, Int.emod_eq_of_lt (by omega) (by omega)]

theorem emod_add_left_cancel (a b m : Int) : (a % m + b) % m = (a + b) % m := by
  rw [Int.add_emod (a % m) b m, Int.emod_emod_of_dvd a dvd_rfl, ← Int.add_emod]

theorem emod_sub_left_cancel (a b m : Int) : (a % m - b) % m = (a - b) % m := by
  rw [Int.sub_emod (a % m) b m, Int.emod_emod_of_dvd a dvd_rfl, ← Int.sub_emod]

end Carousel

/-! Projections of the dispatched event log: the (duration, timingFunction)
payloads of the start events, and the number of end events. -/

def startsProj (l : List Ev) : List (Int × String) :=
  l.filterMap fun e =>
    match e with
    | .start d => some (d.duration, d.timingFunction)
    | _ => none

def endCount (l : List Ev) : Nat :=
  l.countP fun e =>
    match e with
    | .fin _ => true
    | _ => false

@[simp] theorem startsProj_nil : startsProj [] = [] := rfl

@[simp] theorem startsProj_append (l1 l2 : List Ev) :
    startsProj (l1 ++ l2) = startsProj l1 ++ startsProj l2 :=
  List.filterMap_append l1 l2 _

@[simp] theorem startsProj_before (d : EvData) (l : List Ev) :
    startsProj (.before d :: l) = startsProj l := rfl

@[simp] theorem startsProj_change (d : EvData) (l : List Ev) :
    startsProj (.change d :: l) = startsProj l := rfl

@[simp] theorem startsProj_fin (d : EvData) (l : List Ev) :
    startsProj (.fin d :: l) = startsProj l := rfl

@[simp] theorem startsProj_start (d : EvData) (l : List Ev) :
    startsProj (.start d :: l) = (d.duration, d.timingFunction) :: startsProj l := rfl

@[simp] theorem endCount_nil : endCount [] = 0 := rfl

@[simp] theorem endCount_append (l1 l2 : List Ev) :
    endCount (l1 ++ l2) = endCount l1 + endCount l2 :=
  List.countP_append _ l1 l2

@[simp] theorem endCount_before (d : EvData) (l : List Ev) :
    endCount (.before d :: l) = endCount l := by
  simp [endCount, List.countP_cons]

@[simp] theorem endCount_change (d : EvData) (l : List Ev) :
    endCount (.change d :: l) = endCount l := by
  simp [endCount, List.countP_cons]

@[simp] theorem endCount_start (d : EvData) (l : List Ev) :
    endCount (.start d :: l) = endCount l := by
  simp [endCount, List.countP_cons]

@[simp] theorem endCount_fin (d : EvData) (l : List Ev) :
    endCount (.fin d :: l) = endCount l + 1 := by
  simp [endCount, List.countP_cons]

namespace Carousel

theorem move_cur (s : State) : (move s).cur = curStep s.cur s.dir s.max := by
  unfold move
  by_cases hm : s.max = 1 <;>
    simp [hm, emit, setTransition, setCur, setNext, setPrev, setVis]

theorem move_prev (s : State) :
    (move s).prev = prevStep (curStep s.cur s.dir s.max) s.dir s.visible s.max := by
  unfold move
  by_cases hm : s.max = 1 <;>
    simp [hm, emit, setTransition, setCur, setNext, setPrev, setVis]

theorem move_next (s : State) :
    (move s).next = nextStep (curStep s.cur s.dir s.max) s.dir s.visible s.max := by
  unfold move
  by_cases hm : s.max = 1 <;>
    simp [hm, emit, setTransition, setCur, setNext, setPrev, setVis]

theorem move_dir (s : State) : (move s).dir = s.dir := by
  unfold move
  by_cases hm : s.max = 1 <;>
    simp [hm, emit, setTransition, setCur, setNext, setPrev, setVis]

theorem move_max (s : State) : (move s).max = s.max := by
  unfold move
  by_cases hm : s.max = 1 <;>
    simp [hm, emit, setTransition, setCur, setNext, setPrev, setVis]

theorem move_visible (s : State) : (move s).visible = s.visible := by
  unfold move
  by_cases hm : s.max = 1 <;>
    simp [hm, emit, setTransition, setCur, setNext, setPrev, setVis]

theorem move_moving (s : State) : (move s).moving = true := by
  unfold move
  by_cases hm : s.max = 1 <;>
    simp [hm, emit, setTransition, setCur, setNext, setPrev, setVis]

theorem move_duration (s : State) : (move s).duration = s.duration := by
  unfold move
  by_cases hm : s.max = 1 <;>
    simp [hm, emit, setTransition, setCur, setNext, setPrev, setVis]

theorem move_timingFunction (s : State) :
    (move s).timingFunction = s.timingFunction := by
  unfold move
  by_cases hm : s.max = 1 <;>
    simp [hm, emit, setTransition, setCur, setNext, setPrev, setVis]

theorem move_defaultDuration (s : State) :
    (move s).defaultDuration = s.defaultDuration := by
  unfold move
  by_cases hm : s.max = 1 <;>
    simp [hm, emit, setTransition, setCur, setNext, setPrev, setVis]

theorem move_defaultTimingFunction (s : State) :
    (move s).defaultTimingFunction = s.defaultTimingFunction := by
  unfold move
  by_cases hm : s.max = 1 <;>
    simp [hm, emit, setTransition, setCur, setNext, setPrev, setVis]

theorem move_startsProj (s : State) :
    startsProj (move s).events = startsProj s.events ++ [(s.duration, s.timingFunction)] := by
  unfold move
  by_cases hm : s.max = 1 <;>
    simp [hm, emit, setTransition, setCur, setNext, setPrev, setVis, eventData]

theorem move_endCount (s : State) :
    endCount (move s).events = endCount s.events := by
  unfold move
  by_cases hm : s.max = 1 <;>
    simp [hm, emit, setTransition, setCur, setNext, setPrev, setVis, eventData]

theorem endMove_cur (s : State) : (endMove s).cur = s.cur := by
  unfold endMove reset
  by_cases hm : s.max = 1 <;>
    simp [hm, emit, setTransition, setDuration, setTimingFunction]

theorem endMove_prev (s : State) : (endMove s).prev = s.prev := by
  unfold endMove reset
  by_cases hm : s.max = 1 <;>
    simp [hm, emit, setTransition, setDuration, setTimingFunction]

theorem endMove_next (s : State) : (endMove s).next = s.next := by
  unfold endMove reset
  by_cases hm : s.max = 1 <;>
    simp [hm, emit, setTransition, setDuration, setTimingFunction]

theorem endMove_dir (s : State) : (endMove s).dir = s.dir := by
  unfold endMove reset
  by_cases hm : s.max = 1 <;>
    simp [hm, emit, setTransition, setDuration, setTimingFunction]

theorem endMove_max (s : State) : (endMove s).max = s.max := by
  unfold endMove reset
  by_cases hm : s.max = 1 <;>
    simp [hm, emit, setTransition, setDuration, setTimingFunction]

theorem endMove_visible (s : State) : (endMove s).visible = s.visible := by
  unfold endMove reset
  by_cases hm : s.max = 1 <;>
    simp [hm, emit, setTransition, setDuration, setTimingFunction]

theorem endMove_moving (s : State) : (endMove s).moving = false := by
  unfold endMove reset
  by_cases hm : s.max = 1 <;>
    simp [hm, emit, setTransition, setDuration, setTimingFunction]

theorem endMove_duration (s : State) : (endMove s).duration = s.defaultDuration := by
  unfold endMove reset
  by_cases hm : s.max = 1 <;>
    simp [hm, emit, setTransition, setDuration, setTimingFunction]

theorem endMove_timingFunction (s : State) :
    (endMove s).timingFunction = s.defaultTimingFunction := by
  unfold endMove reset
  by_cases hm : s.max = 1 <;>
    simp [hm, emit, setTransition, setDuration, setTimingFunction]

theorem endMove_defaultDuration (s : State) :
    (endMove s).defaultDuration = s.defaultDuration := by
  unfold endMove reset
  by_cases hm : s.max = 1 <;>
    simp [hm, emit, setTransition, setDuration, setTimingFunction]

theorem endMove_defaultTimingFunction (s : State) :
    (endMove s).defaultTimingFunction = s.defaultTimingFunction := by
  unfold endMove reset
  by_cases hm : s.max = 1 <;>
    simp [hm, emit, setTransition, setDuration, setTimingFunction]

theorem endMove_startsProj (s : State) :
    startsProj (endMove s).events = startsProj s.events := by
  unfold endMove reset
  by_cases hm : s.max = 1 <;>
    simp [hm, emit, setTransition, setDuration, setTimingFunction, eventData]

theorem endMove_endCount (s : State) :
    endCount (endMove s).events = endCount s.events + 1 := by
  unfold endMove reset
  by_cases hm : s.max = 1 <;>
    simp [hm, emit, setTransition, setDuration, setTimingFunction, eventData]

end Carousel

namespace Carousel
@[simp] theorem setDuration_cur (d : Int) (s : State) :
    (setDuration d s).cur = s.cur := rfl
@[simp] theorem setDuration_prev (d : Int) (s : State) :
    (setDuration d s).prev = s.prev := rfl
@[simp] theorem setDuration_next (d : Int) (s : State) :
    (setDuration d s).next = s.next := rfl
@[simp] theorem setDuration_dir (d : Int) (s : State) :
    (setDuration d s).dir = s.dir := rfl
@[simp] theorem setDuration_max (d : Int) (s : State) :
    (setDuration d s).max = s.max := rfl
@[simp] theorem setDuration_visible (d : Int) (s : State) :
    (setDuration d s).visible = s.visible := rfl
@[simp] theorem setDuration_moving (d : Int) (s : State) :
    (setDuration d s).moving = s.moving := rfl
@[simp] theorem setDuration_defaultDuration (d : Int) (s : State) :
    (setDuration d s).defaultDuration = s.defaultDuration := rfl
@[simp] theorem setDuration_defaultTimingFunction (d : Int) (s : State) :
    (setDuration d s).defaultTimingFunction = s.defaultTimingFunction := rfl
@[simp] theorem setDuration_transition (d : Int) (s : State) :
    (setDuration d s).transition = s.transition := rfl
@[simp] theorem setDuration_timingFunction (d : Int) (s : State) :
    (setDuration d s).timingFunction = s.timingFunction := rfl
@[simp] theorem setDuration_duration (d : Int) (s : State) :
    (setDuration d s).duration = d := rfl
@[simp] theorem setDuration_startsProj (d : Int) (s : State) :
    startsProj (setDuration d s).events = startsProj s.events := by
  simp [setDuration, emit]
@[simp] theorem setDuration_endCount (d : Int) (s : State) :
    endCount (setDuration d s).events = endCount s.events := by
  simp [setDuration, emit]
@[simp] theorem setTimingFunction_cur (fn : String) (s : State) :
    (setTimingFunction fn s).cur = s.cur := rfl
@[simp] theorem setTimingFunction_prev (fn : String) (s : State) :
    (setTimingFunction fn s).prev = s.prev := rfl
@[simp] theorem setTimingFunction_next (fn : String) (s : State) :
    (setTimingFunction fn s).next = s.next := rfl
@[simp] theorem setTimingFunction_dir (fn : String) (s : State) :
    (setTimingFunction fn s).dir = s.dir := rfl
@[simp] theorem setTimingFunction_max (fn : String) (s : State) :
    (setTimingFunction fn s).max = s.max := rfl
@[simp] theorem setTimingFunction_visible (fn : String) (s : State) :
    (setTimingFunction fn s).visible = s.visible := rfl
@[simp] theorem setTimingFunction_moving (fn : String) (s : State) :
    (setTimingFunction fn s).moving = s.moving := rfl
@[simp] theorem setTimingFunction_defaultDuration (fn : String) (s : State) :
    (setTimingFunction fn s).defaultDuration = s.defaultDuration := rfl
@[simp] theorem setTimingFunction_defaultTimingFunction (fn : String) (s : State) :
    (setTimingFunction fn s).defaultTimingFunction = s.defaultTimingFunction := rfl
@[simp] theorem setTimingFunction_transition (fn : String) (s : State) :
    (setTimingFunction fn s).transition = s.transition := rfl
@[simp] theorem setTimingFunction_duration (fn : String) (s : State) :
    (setTimingFunction fn s).duration = s.duration := rfl
@[simp] theorem setTimingFunction_timingFunction (fn : String) (s : State) :
    (setTimingFunction fn s).timingFunction = fn := rfl
@[simp] theorem setTimingFunction_startsProj (fn : String) (s : State) :
    startsProj (setTimingFunction fn s).events = startsProj s.events := by
  simp [setTimingFunction, emit]
@[simp] theorem setTimingFunction_endCount (fn : String) (s : State) :
    endCount (setTimingFunction fn s).events = endCount s.events := by
  simp [setTimingFunction, emit]
attribute [simp] move_cur move_prev move_next move_dir move_max move_visible
  move_moving move_duration move_timingFunction move_defaultDuration
  move_defaultTimingFunction move_startsProj move_endCount
  endMove_cur endMove_prev endMove_next endMove_dir endMove_max endMove_visible
  endMove_moving endMove_duration endMove_timingFunction endMove_defaultDuration
  endMove_defaultTimingFunction endMove_startsProj endMove_endCount

theorem curStep_no_wrap_fwd (cur max : Int) (h : cur + 1 ≤ max) :
    curStep cur 1 max = cur + 1 := by
  unfold curStep
  rw [if_pos rfl, if_neg (by omega)]

theorem curStep_no_wrap_back (cur max : Int) (h : 1 ≤ cur) :
    curStep cur (-1) max = cur - 1 := by
  unfold curStep
  rw [if_neg (by norm_num), if_neg (by omega)]

end Carousel

namespace Carousel

theorem chain_spec (f : Nat) : ∀ (n : Int) (s : State),
    0 ≤ s.cur → s.cur ≤ s.max → 0 ≤ n → n ≤ s.max → n ≠ s.cur →
    s.dir = (if s.cur < n then 1 else -1) →
    f = (n - s.cur).natAbs →
    (moveRecursiveChain f n s).cur = n ∧
    (moveRecursiveChain f n s).moving = false ∧
    (moveRecursiveChain f n s).dir = s.dir ∧
    (moveRecursiveChain f n s).max = s.max ∧
    (moveRecursiveChain f n s).duration = s.defaultDuration ∧
    (moveRecursiveChain f n s).timingFunction = s.defaultTimingFunction ∧
    (moveRecursiveChain f n s).defaultDuration = s.defaultDuration ∧
    (moveRecursiveChain f n s).defaultTimingFunction = s.defaultTimingFunction ∧
    startsProj (moveRecursiveChain f n s).events =
      startsProj s.events ++ (List.replicate (f - 1) ((60 : Int), "linear")
        ++ [(s.defaultDuration, "ease-out")]) ∧
    endCount (moveRecursiveChain f n s).events = endCount s.events + f := by
  induction f with
  | zero =>
    intro n s h0 h1 hn0 hn1 hne hdir hf
    exfalso
    omega
  | succ f ih =>
    intro n s h0 h1 hn0 hn1 hne hdir hf
    simp only [moveRecursiveChain]
    by_cases hlt : s.cur < n
    · have hd1 : s.dir = 1 := by rw [hdir, if_pos hlt]
      by_cases hfin : s.cur + 1 = n
      · have hcond : (if s.dir = 1 then s.cur + 1 else s.cur - 1) = n := by
          rw [hd1, if_pos rfl]
          exact hfin
        rw [if_pos hcond]
        have hf0 : f = 0 := by omega
        subst hf0
        refine ⟨?_, by simp, by simp, by simp, by simp, by simp, by simp, by simp,
          by simp, by simp⟩
        simp only [endMove_cur, setTimingFunction_cur, move_cur, setDuration_cur,
          setTimingFunction_dir, setDuration_dir, setTimingFunction_max,
          setDuration_max]
        rw [hd1, curStep_no_wrap_fwd _ _ (by omega)]
        exact hfin
      · have hcond : ¬((if s.dir = 1 then s.cur + 1 else s.cur - 1) = n) := by
          rw [hd1, if_pos rfl]
          exact hfin
        rw [if_neg hcond]
        have ht_cur :
            (endMove (move (setTimingFunction "linear" (setDuration 60 s)))).cur
              = s.cur + 1 := by
          simp only [endMove_cur, move_cur, setTimingFunction_cur, setDuration_cur,
            setTimingFunction_dir, setDuration_dir, setTimingFunction_max,
            setDuration_max]
          rw [hd1, curStep_no_wrap_fwd _ _ (by omega)]
        obtain ⟨ic, im, idr, ix, idu, itf, idd, idt, isp, iec⟩ :=
          ih n (endMove (move (setTimingFunction "linear" (setDuration 60 s))))
            (by rw [ht_cur]; omega) (by rw [ht_cur]; simp; omega) hn0 (by simpa)
            (by rw [ht_cur]; omega)
            (by simp only [endMove_dir, move_dir, setTimingFunction_dir,
                  setDuration_dir, ht_cur]
                rw [hd1, if_pos (by omega)])
            (by rw [ht_cur]; omega)
        refine ⟨ic, im, ?_, ?_, ?_, ?_, ?_, ?_, ?_, ?_⟩
        · rw [idr]; simp
        · rw [ix]; simp
        · rw [idu]; simp
        · rw [itf]; simp
        · rw [idd]; simp
        · rw [idt]; simp
        · rw [isp]
          simp only [endMove_startsProj, move_startsProj,
            setTimingFunction_startsProj, setDuration_startsProj,
            setTimingFunction_duration, setDuration_duration,
            setTimingFunction_timingFunction, endMove_defaultDuration,
            move_defaultDuration, setTimingFunction_defaultDuration,
            setDuration_defaultDuration]
          have hf1 : 1 ≤ f := by omega
          rw [show f + 1 - 1 = (f - 1) + 1 from by omega, List.replicate_succ]
          simp [List.append_assoc]
        · rw [iec]
          simp only [endMove_endCount, move_endCount,
            setTimingFunction_endCount, setDuration_endCount]
          omega
    · have hgt : n < s.cur := by omega
      have hd1 : s.dir = -1 := by rw [hdir, if_neg hlt]
      by_cases hfin : s.cur - 1 = n
      · have hcond : (if s.dir = 1 then s.cur + 1 else s.cur - 1) = n := by
          rw [hd1, if_neg (by norm_num)]
          exact hfin
        rw [if_pos hcond]
        have hf0 : f = 0 := by omega
        subst hf0
        refine ⟨?_, by simp, by simp, by simp, by simp, by simp, by simp, by simp,
          by simp, by simp⟩
        simp only [endMove_cur, setTimingFunction_cur, move_cur, setDuration_cur,
          setTimingFunction_dir, setDuration_dir, setTimingFunction_max,
          setDuration_max]
        rw [hd1, curStep_no_wrap_back _ _ (by omega)]
        exact hfin
      · have hcond : ¬((if s.dir = 1 then s.cur + 1 else s.cur - 1) = n) := by
          rw [hd1, if_neg (by norm_num)]
          exact hfin
        rw [if_neg hcond]
        have ht_cur :
            (endMove (move (setTimingFunction "linear" (setDuration 60 s)))).cur
              = s.cur - 1 := by
          simp only [endMove_cur, move_cur, setTimingFunction_cur, setDuration_cur,
            setTimingFunction_dir, setDuration_dir, setTimingFunction_max,
            setDuration_max]
          rw [hd1, curStep_no_wrap_back _ _ (by omega)]
        obtain ⟨ic, im, idr, ix, idu, itf, idd, idt, isp, iec⟩ :=
          ih n (endMove (move (setTimingFunction "linear" (setDuration 60 s))))
            (by rw [ht_cur]; omega) (by rw [ht_cur]; simp; omega) hn0 (by simpa)
            (by rw [ht_cur]; omega)
            (by simp only [endMove_dir, move_dir, setTimingFunction_dir,
                  setDuration_dir, ht_cur]
                rw [hd1, if_neg (by omega)])
            (by rw [ht_cur]; omega)
        refine ⟨ic, im, ?_, ?_, ?_, ?_, ?_, ?_, ?_, ?_⟩
        · rw [idr]; simp
        · rw [ix]; simp
        · rw [idu]; simp
        · rw [itf]; simp
        · rw [idd]; simp
        · rw [idt]; simp
        · rw [isp]
          simp only [endMove_startsProj, move_startsProj,
            setTimingFunction_startsProj, setDuration_startsProj,
            setTimingFunction_duration, setDuration_duration,
            setTimingFunction_timingFunction, endMove_defaultDuration,
            move_defaultDuration, setTimingFunction_defaultDuration,
            setDuration_defaultDuration]
          have hf1 : 1 ≤ f := by omega
          rw [show f + 1 - 1 = (f - 1) + 1 from by omega, List.replicate_succ]
          simp [List.append_assoc]
        · rw [iec]
          simp only [endMove_endCount, move_endCount,
            setTimingFunction_endCount, setDuration_endCount]
          omega

end Carousel

/-! Claim theorems. -/

/-- C1: for every carousel state with max ≥ 0, cur in [0, max] and dir in
{-1, 1}, a single committed step sets the new cur to
(cur + dir) mod (max + 1): this holds for the shared `move` primitive
through which back, fwd and every chained goto step commit, and for the
public back and fwd methods themselves (fwd from cur = max wraps to 0,
back from cur = 0 wraps to max, all other cases change cur by dir). -/
theorem C1_single_step_mod (s : State)
    (hmv : s.moving = false) (hm : 0 ≤ s.max) (h0 : 0 ≤ s.cur)
    (h1 : s.cur ≤ s.max) (hd : s.dir = 1 ∨ s.dir = -1) :
    (Carousel.move s).cur = (s.cur + s.dir) % (s.max + 1) ∧
    (Carousel.back s).cur = (s.cur + -1) % (s.max + 1) ∧
    (Carousel.fwd s).cur = (s.cur + 1) % (s.max + 1) := by
  refine ⟨?_, ?_, ?_⟩
  · rw [Carousel.move_cur]
    exact Carousel.curStep_eq s.cur s.max s.dir h0 h1 hd
  · unfold Carousel.back
    by_cases hz : s.max = 0
    · rw [if_pos (Or.inr hz)]
      have hc : s.cur = 0 := by omega
      rw [hc, hz]
      decide
    · rw [if_neg (by simp [hmv, hz]), Carousel.move_cur]
      exact Carousel.curStep_eq s.cur s.max (-1) h0 h1 (Or.inr rfl)
  · unfold Carousel.fwd
    by_cases hz : s.max = 0
    · rw [if_pos (Or.inr hz)]
      have hc : s.cur = 0 := by omega
      rw [hc, hz]
      decide
    · rw [if_neg (by simp [hmv, hz]), Carousel.move_cur]
      exact Carousel.curStep_eq s.cur s.max 1 h0 h1 (Or.inl rfl)

def sC1 : State :=
  { max := 4, visible := 1, cur := 4, prev := 3, next := 0, dir := 1,
    moving := false, duration := 250, timingFunction := "ease-in-out",
    defaultDuration := 250, defaultTimingFunction := "ease-in-out",
    transition := true, events := [] }

theorem C1_single_step_mod_witness :
    (Carousel.move sC1).cur = (sC1.cur + sC1.dir) % (sC1.max + 1) ∧
    (Carousel.back sC1).cur = (sC1.cur + -1) % (sC1.max + 1) ∧
    (Carousel.fwd sC1).cur = (sC1.cur + 1) % (sC1.max + 1) :=
  C1_single_step_mod sC1 rfl (by decide) (by decide) (by decide) (Or.inl rfl)

def sC2 : State :=
  { max := 4, visible := 1, cur := 0, prev := 4, next := 1, dir := 1,
    moving := false, duration := 250, timingFunction := "ease-in-out",
    defaultDuration := 250, defaultTimingFunction := "ease-in-out",
    transition := true, events := [] }

/-- C2 counterexample: with max = 4, visibleCount = 1, a back step from
cur = 0 yields cur = 4 but prev = 0 and next = 3 — not prev = 3 and
next = 0 as the claim (and its direction-independent formulas
next = (cur + visibleCount) mod (max+1), prev = (cur - 1) mod (max+1))
requires: for a back step the code computes next = (cur - 1) mod (max+1)
and prev = (cur + visibleCount) mod (max+1), exchanging the two roles. -/
theorem C2_counterexample :
    (Carousel.back sC2).cur = 4 ∧
    (Carousel.back sC2).prev = 0 ∧
    (Carousel.back sC2).next = 3 ∧
    ¬((Carousel.back sC2).prev = 3 ∧ (Carousel.back sC2).next = 0) := by
  refine ⟨by decide, by decide, by decide, by decide⟩

/-- C2 amended: after a committed step (with 1 ≤ visibleCount ≤ max, the
regime in which the component activates), the anchors satisfy
direction-dependent formulas: after a fwd step
next = (cur + visibleCount) mod (max+1) and prev = (cur - 1) mod (max+1)
(as the claim states, covering its fwd example), while after a back step
the two formulas exchange roles: next = (cur - 1) mod (max+1) and
prev = (cur + visibleCount) mod (max+1). -/
theorem C2_anchor_formulas (s : State)
    (hmv : s.moving = false) (h0 : 0 ≤ s.cur) (h1 : s.cur ≤ s.max)
    (hv : 1 ≤ s.visible) (hvm : s.visible ≤ s.max) :
    (Carousel.fwd s).next = ((Carousel.fwd s).cur + s.visible) % (s.max + 1) ∧
    (Carousel.fwd s).prev = ((Carousel.fwd s).cur - 1) % (s.max + 1) ∧
    (Carousel.back s).next = ((Carousel.back s).cur - 1) % (s.max + 1) ∧
    (Carousel.back s).prev = ((Carousel.back s).cur + s.visible) % (s.max + 1) := by
  have hz : s.max ≠ 0 := by omega
  have hguard : ¬(s.moving = true ∨ s.max = 0) := by simp [hmv, hz]
  have hf : Carousel.fwd s = Carousel.move { s with dir := 1 } := by
    unfold Carousel.fwd
    rw [if_neg hguard]
  have hb : Carousel.back s = Carousel.move { s with dir := -1 } := by
    unfold Carousel.back
    rw [if_neg hguard]
  have hcf := Carousel.curStep_bounds s.cur s.max 1 h0 h1
  have hcb := Carousel.curStep_bounds s.cur s.max (-1) h0 h1
  refine ⟨?_, ?_, ?_, ?_⟩
  · rw [hf, Carousel.move_next, Carousel.move_cur]
    exact Carousel.nextStep_fwd_eq _ s.visible s.max hcf.1 hcf.2 hv hvm
  · rw [hf, Carousel.move_prev, Carousel.move_cur]
    exact Carousel.prevStep_fwd_eq _ s.visible s.max hcf.1 hcf.2
  · rw [hb, Carousel.move_next, Carousel.move_cur]
    exact Carousel.nextStep_back_eq _ s.visible s.max hcb.1 hcb.2
  · rw [hb, Carousel.move_prev, Carousel.move_cur]
    exact Carousel.prevStep_back_eq _ s.visible s.max hcb.1 hcb.2 hv hvm

theorem C2_anchor_formulas_witness :
    (Carousel.fwd sC2).next = ((Carousel.fwd sC2).cur + sC2.visible) % (sC2.max + 1) ∧
    (Carousel.fwd sC2).prev = ((Carousel.fwd sC2).cur - 1) % (sC2.max + 1) ∧
    (Carousel.back sC2).next = ((Carousel.back sC2).cur - 1) % (sC2.max + 1) ∧
    (Carousel.back sC2).prev = ((Carousel.back sC2).cur + sC2.visible) % (sC2.max + 1) :=
  C2_anchor_formulas sC2 rfl (by decide) (by decide) (by decide) (by decide)

/-- C3: while moving is true, every step-initiating operation is a no-op:
back, fwd and goto of the windowed variant return the state unchanged
(hence cur, prev, next, dir, duration, timingFunction, the moving flag and
the event log — so no extra before or start — are all untouched); the
auto-advance callback leaves its carousel untouched when it fires during a
move; and a gesture release commit leaves all the listed carousel fields
untouched (its back/fwd call is rejected by the moving guard), so at most
one transition is in flight at a time. -/
theorem C3_moving_noop (s : State) (hs : s.moving = true) (n : Int)
    (a : AutoState) (ha : a.carousel.moving = true)
    (g : GState) (hg : g.c.moving = true) (x : Int) :
    Carousel.back s = s ∧ Carousel.fwd s = s ∧ Carousel.goto n s = s ∧
    (Auto.fire a).carousel = a.carousel ∧
    (Gesture.pointerUp x g).c.cur = g.c.cur ∧
    (Gesture.pointerUp x g).c.prev = g.c.prev ∧
    (Gesture.pointerUp x g).c.next = g.c.next ∧
    (Gesture.pointerUp x g).c.dir = g.c.dir ∧
    (Gesture.pointerUp x g).c.duration = g.c.duration ∧
    (Gesture.pointerUp x g).c.timingFunction = g.c.timingFunction ∧
    (Gesture.pointerUp x g).c.moving = true := by
  have hb : Carousel.back s = s := by
    unfold Carousel.back
    rw [if_pos (Or.inl hs)]
  have hf : Carousel.fwd s = s := by
    unfold Carousel.fwd
    rw [if_pos (Or.inl hs)]
  have hgo : Carousel.goto n s = s := by
    unfold Carousel.goto
    rw [if_pos (Or.inl hs)]
  have hfire : (Auto.fire a).carousel = a.carousel := by
    unfold Auto.fire
    split
    · simp [ha]
    · rfl
  refine ⟨hb, hf, hgo, hfire, ?_, ?_, ?_, ?_, ?_, ?_, ?_⟩ <;>
    by_cases hct : g.curT = true <;>
      simp [Gesture.pointerUp, hct, CJ.back, CJ.fwd, CJ.setTransition, hg]

def sC3 : State :=
  { max := 4, visible := 1, cur := 2, prev := 1, next := 3, dir := 1,
    moving := true, duration := 250, timingFunction := "ease-in-out",
    defaultDuration := 250, defaultTimingFunction := "ease-in-out",
    transition := true, events := [] }

def cjC3 : CJState :=
  { max := 2, cur := 0, prev := 2, next := 1, dir := 1, moving := true,
    duration := 250, timingFunction := "ease-in-out", defaultDuration := 250,
    defaultTimingFunction := "ease-in-out", transition := true }

def aC3 : AutoState :=
  { carousel := sC3, pending := 1, handle := some true, hover := false,
    cfgInterval := some 4000, cfgDuration := none, cfgTiming := none,
    cfgOnHover := false, cfgDir := "" }

def gC3 : GState := { c := cjC3, pointerStart := some 10, curT := true }

theorem C3_moving_noop_witness :
    Carousel.back sC3 = sC3 ∧ Carousel.fwd sC3 = sC3 ∧
    Carousel.goto 4 sC3 = sC3 ∧
    (Auto.fire aC3).carousel = aC3.carousel ∧
    (Gesture.pointerUp 50 gC3).c.cur = gC3.c.cur ∧
    (Gesture.pointerUp 50 gC3).c.prev = gC3.c.prev ∧
    (Gesture.pointerUp 50 gC3).c.next = gC3.c.next ∧
    (Gesture.pointerUp 50 gC3).c.dir = gC3.c.dir ∧
    (Gesture.pointerUp 50 gC3).c.duration = gC3.c.duration ∧
    (Gesture.pointerUp 50 gC3).c.timingFunction = gC3.c.timingFunction ∧
    (Gesture.pointerUp 50 gC3).c.moving = true :=
  C3_moving_noop sC3 rfl 4 aC3 rfl gC3 rfl 50

def cjC6 : CJState :=
  { max := 2, cur := 0, prev := 2, next := 1, dir := 1, moving := true,
    duration := 250, timingFunction := "ease-in-out", defaultDuration := 250,
    defaultTimingFunction := "ease-in-out", transition := true }

/-- C6: the goto of src/js/carousel.js checks only n !== cur — neither the
moving flag nor the 0 ≤ n ≤ max range. At the failing input (moving = true,
cur = 0, max = 2), goto(1) still commits a step and changes cur to 1
instead of being a complete no-op as the claim requires (the
src/js/Carousel/index.js variant does guard all four conditions). -/
theorem C6_cj_goto_unguarded :
    cjC6.moving = true ∧ cjC6.cur = 0 ∧ (CJ.goto 1 cjC6).cur = 1 ∧
    (CJ.goto 1 cjC6).moving = true := by
  refine ⟨by decide, by decide, by decide, by decide⟩

def sC8 : State :=
  { max := 4, visible := 1, cur := 0, prev := 4, next := 1, dir := 1,
    moving := false, duration := 250, timingFunction := "ease-in-out",
    defaultDuration := 250, defaultTimingFunction := "ease-in-out",
    transition := true, events := [] }

def aC8 : AutoState :=
  { carousel := sC8, pending := 0, handle := none, hover := false,
    cfgInterval := none, cfgDuration := none, cfgTiming := none,
    cfgOnHover := false, cfgDir := "" }

/-- C8: at the failing input — no data-auto-interval configured (parseInt
yields NaN) and the carousel not moving — start() is not a no-op: the
interval getter falls back to 5000 because `typeof parseInt(x)` is always
"number", so a timer is scheduled even though the attribute documentation
of the file says deleting the attribute stops auto movement. -/
theorem C8_start_without_interval :
    aC8.cfgInterval = none ∧ aC8.carousel.moving = false ∧
    Auto.interval aC8 = 5000 ∧
    (Auto.start aC8).pending = 1 ∧ (Auto.start aC8).handle = some true := by
  refine ⟨by decide, by decide, by decide, by decide, by decide⟩

/-- C10 counterexample: constructing the src/js/carousel.js component with
zero slides is not rejected — the constructor completes and returns an
instance whose max, cur, prev and next are all the findIndex sentinel -1,
contradicting rejection at construction time with a configuration error. -/
theorem C10_counterexample :
    (constructCJ [] [] [] "ease-in-out" 250).isSome = true ∧
    ((constructCJ [] [] [] "ease-in-out" 250).map fun c =>
      (c.max, c.cur, c.prev, c.next)) = some (-1, -1, -1, -1) := by
  refine ⟨by decide, by decide⟩

/-- C10 amended: in the src/js/Carousel/index.js variant, construction
with zero slides fails (the unguarded access to the first slide throws a
TypeError — an accidental crash rather than a deliberate configuration
error) and construction with at least one slide succeeds; in the
src/js/carousel.js variant, construction with zero slides is not rejected
at all and yields an instance with sentinel index -1 everywhere. -/
theorem C10_zero_slides (count : Nat) (v : Int) (h : 1 ≤ count) :
    constructIdx 0 v = none ∧
    (constructIdx count v).isSome = true ∧
    ((constructCJ [] [] [] "ease-in-out" 250).map fun c =>
      (c.max, c.cur, c.prev, c.next)) = some (-1, -1, -1, -1) := by
  refine ⟨rfl, ?_, by decide⟩
  unfold constructIdx initSlidesIdx
  have hc : ¬(count = 0) := by omega
  simp [hc]

theorem C10_zero_slides_witness :
    constructIdx 0 1 = none ∧
    (constructIdx 3 1).isSome = true ∧
    ((constructCJ [] [] [] "ease-in-out" 250).map fun c =>
      (c.max, c.cur, c.prev, c.next)) = some (-1, -1, -1, -1) :=
  C10_zero_slides 3 1 (by decide)

/-- C4: a valid goto(n) with the chain awaited terminates with cur = n,
emits exactly one start and one end per step (distance-many of each), runs
every interior step with duration 60 and timing function "linear" and the
final step with the default duration and "ease-out" (read off the start
payloads), and leaves duration and timing function restored to the
component defaults with moving cleared. -/
theorem C4_goto_chain (s : State) (n : Int)
    (hmv : s.moving = false) (hm : 1 ≤ s.max) (h0 : 0 ≤ s.cur)
    (h1 : s.cur ≤ s.max) (hn0 : 0 ≤ n) (hn1 : n ≤ s.max) (hne : n ≠ s.cur) :
    (Carousel.goto n s).cur = n ∧
    (Carousel.goto n s).moving = false ∧
    (Carousel.goto n s).duration = s.defaultDuration ∧
    (Carousel.goto n s).timingFunction = s.defaultTimingFunction ∧
    startsProj (Carousel.goto n s).events =
      startsProj s.events ++
        (List.replicate ((n - s.cur).natAbs - 1) ((60 : Int), "linear")
          ++ [(s.defaultDuration, "ease-out")]) ∧
    endCount (Carousel.goto n s).events =
      endCount s.events + (n - s.cur).natAbs := by
  have hz : s.max ≠ 0 := by omega
  have hgoto : Carousel.goto n s =
      Carousel.moveRecursiveChain (n - s.cur).natAbs n
        { s with dir := if n > s.cur then 1 else -1 } := by
    unfold Carousel.goto
    rw [if_neg (by simp [hmv, hz]), if_neg (by omega), if_neg hne]
  obtain ⟨ic, im, idr, ix, idu, itf, idd, idt, isp, iec⟩ :=
    Carousel.chain_spec (n - s.cur).natAbs n
      { s with dir := if n > s.cur then 1 else -1 }
      h0 h1 hn0 hn1 hne rfl rfl
  rw [hgoto]
  exact ⟨ic, im, idu, itf, isp, iec⟩

def sC4 : State :=
  { max := 4, visible := 1, cur := 0, prev := 4, next := 1, dir := 1,
    moving := false, duration := 250, timingFunction := "ease-in-out",
    defaultDuration := 250, defaultTimingFunction := "ease-in-out",
    transition := true, events := [] }

theorem C4_goto_chain_witness :
    (Carousel.goto 2 sC4).cur = 2 ∧
    (Carousel.goto 2 sC4).moving = false ∧
    (Carousel.goto 2 sC4).duration = sC4.defaultDuration ∧
    (Carousel.goto 2 sC4).timingFunction = sC4.defaultTimingFunction ∧
    startsProj (Carousel.goto 2 sC4).events =
      startsProj sC4.events ++
        (List.replicate (((2 : Int) - sC4.cur).natAbs - 1) ((60 : Int), "linear")
          ++ [(sC4.defaultDuration, "ease-out")]) ∧
    endCount (Carousel.goto 2 sC4).events =
      endCount sC4.events + ((2 : Int) - sC4.cur).natAbs :=
  C4_goto_chain sC4 2 rfl (by decide) (by decide) (by decide) (by decide)
    (by decide) (by decide)

namespace Carousel

theorem chain_dir (f : Nat) : ∀ (n : Int) (s : State),
    (moveRecursiveChain f n s).dir = s.dir := by
  induction f with
  | zero => intro n s; rfl
  | succ f ih =>
    intro n s
    simp only [moveRecursiveChain]
    by_cases hc : (if s.dir = 1 then s.cur + 1 else s.cur - 1) = n
    · rw [if_pos hc]
      simp
    · rw [if_neg hc, ih]
      simp

end Carousel

/-- C5: an acting goto(n) (not moving, at least two slides, valid target)
sets dir = 1 (fwd) exactly when n > cur and dir = -1 (back) exactly when
n < cur — a plain linear comparison, never the shortest circular path, so
a jump from 0 to max runs forward. -/
theorem C5_goto_direction (s : State) (n : Int)
    (hmv : s.moving = false) (hz : s.max ≠ 0)
    (hn0 : 0 ≤ n) (hn1 : n ≤ s.max) (hne : n ≠ s.cur) :
    ((Carousel.goto n s).dir = 1 ↔ s.cur < n) ∧
    ((Carousel.goto n s).dir = -1 ↔ n < s.cur) := by
  have hgoto : Carousel.goto n s =
      Carousel.moveRecursiveChain (n - s.cur).natAbs n
        { s with dir := if n > s.cur then 1 else -1 } := by
    unfold Carousel.goto
    rw [if_neg (by simp [hmv, hz]), if_neg (by omega), if_neg hne]
  rw [hgoto, Carousel.chain_dir]
  have hproj : ({ s with dir := if n > s.cur then 1 else -1 } : State).dir
      = (if n > s.cur then 1 else -1) := rfl
  rw [hproj]
  by_cases hlt : s.cur < n
  · rw [if_pos hlt]
    exact ⟨⟨fun _ => hlt, fun _ => rfl⟩,
      ⟨fun h2 => by omega, fun h2 => by omega⟩⟩
  · rw [if_neg hlt]
    exact ⟨⟨fun h2 => by omega, fun h2 => by omega⟩,
      ⟨fun _ => by omega, fun _ => rfl⟩⟩

def sC5 : State :=
  { max := 4, visible := 1, cur := 0, prev := 4, next := 1, dir := -1,
    moving := false, duration := 250, timingFunction := "ease-in-out",
    defaultDuration := 250, defaultTimingFunction := "ease-in-out",
    transition := true, events := [] }

theorem C5_goto_direction_witness :
    ((Carousel.goto 4 sC5).dir = 1 ↔ sC5.cur < 4) ∧
    ((Carousel.goto 4 sC5).dir = -1 ↔ (4 : Int) < sC5.cur) :=
  C5_goto_direction sC5 4 rfl (by decide) (by decide) (by decide) (by decide)

/-- One public step awaited to completion: the back (false) or fwd (true)
call followed by the transitionend notification for the committed move. -/
def stepAwait (d : Bool) (s : State) : State :=
  if d then Carousel.endMove (Carousel.fwd s) else Carousel.endMove (Carousel.back s)

/-- A finite sequence of awaited fwd (true) / back (false) steps. -/
def applySeq (l : List Bool) (s : State) : State :=
  l.foldl (fun st d => stepAwait d st) s

theorem stepAwait_moving (d : Bool) (s : State) : (stepAwait d s).moving = false := by
  cases d
  · show (Carousel.endMove (Carousel.back s)).moving = false
    simp
  · show (Carousel.endMove (Carousel.fwd s)).moving = false
    simp

theorem stepAwait_max (d : Bool) (s : State) : (stepAwait d s).max = s.max := by
  cases d
  · show (Carousel.endMove (Carousel.back s)).max = s.max
    unfold Carousel.back
    split <;> simp
  · show (Carousel.endMove (Carousel.fwd s)).max = s.max
    unfold Carousel.fwd
    split <;> simp

theorem stepAwait_cur_bounds (d : Bool) (s : State)
    (h0 : 0 ≤ s.cur) (h1 : s.cur ≤ s.max) :
    0 ≤ (stepAwait d s).cur ∧ (stepAwait d s).cur ≤ s.max := by
  cases d
  · show 0 ≤ (Carousel.endMove (Carousel.back s)).cur ∧
      (Carousel.endMove (Carousel.back s)).cur ≤ s.max
    unfold Carousel.back
    split
    · simp only [Carousel.endMove_cur]
      exact ⟨h0, h1⟩
    · simp only [Carousel.endMove_cur, Carousel.move_cur]
      exact Carousel.curStep_bounds s.cur s.max (-1) h0 h1
  · show 0 ≤ (Carousel.endMove (Carousel.fwd s)).cur ∧
      (Carousel.endMove (Carousel.fwd s)).cur ≤ s.max
    unfold Carousel.fwd
    split
    · simp only [Carousel.endMove_cur]
      exact ⟨h0, h1⟩
    · simp only [Carousel.endMove_cur, Carousel.move_cur]
      exact Carousel.curStep_bounds s.cur s.max 1 h0 h1

theorem stepAwait_cur (d : Bool) (s : State)
    (hmv : s.moving = false) (hm : 1 ≤ s.max)
    (h0 : 0 ≤ s.cur) (h1 : s.cur ≤ s.max) :
    (stepAwait d s).cur =
      (s.cur + (if d = true then 1 else -1)) % (s.max + 1) := by
  have hz : s.max ≠ 0 := by omega
  have hguard : ¬(s.moving = true ∨ s.max = 0) := by simp [hmv, hz]
  cases d
  · show (Carousel.endMove (Carousel.back s)).cur = _
    unfold Carousel.back
    rw [if_neg hguard]
    simp only [Carousel.endMove_cur, Carousel.move_cur, Bool.false_eq_true,
      if_false]
    exact Carousel.curStep_eq s.cur s.max (-1) h0 h1 (Or.inr rfl)
  · show (Carousel.endMove (Carousel.fwd s)).cur = _
    unfold Carousel.fwd
    rw [if_neg hguard]
    simp only [Carousel.endMove_cur, Carousel.move_cur, if_pos rfl]
    exact Carousel.curStep_eq s.cur s.max 1 h0 h1 (Or.inl rfl)

theorem applySeq_inv (l : List Bool) : ∀ (s : State),
    s.moving = false → 1 ≤ s.max → 0 ≤ s.cur → s.cur ≤ s.max →
    (applySeq l s).moving = false ∧ (applySeq l s).max = s.max ∧
    0 ≤ (applySeq l s).cur ∧ (applySeq l s).cur ≤ s.max := by
  induction l with
  | nil =>
    intro s h1 h2 h3 h4
    exact ⟨h1, rfl, h3, h4⟩
  | cons d l ih =>
    intro s h1 h2 h3 h4
    have hstep : applySeq (d :: l) s = applySeq l (stepAwait d s) := rfl
    rw [hstep]
    have hb := stepAwait_cur_bounds d s h3 h4
    have hx := stepAwait_max d s
    obtain ⟨r1, r2, r3, r4⟩ := ih (stepAwait d s) (stepAwait_moving d s)
      (by rw [hx]; omega) hb.1 (by rw [hx]; exact hb.2)
    exact ⟨r1, by rw [r2, hx], r3, by rw [hx] at r4; exact r4⟩

theorem applySeq_replicate_true (k : Nat) : ∀ (s : State),
    s.moving = false → 1 ≤ s.max → 0 ≤ s.cur → s.cur ≤ s.max →
    (applySeq (List.replicate k true) s).cur = (s.cur + (k : Int)) % (s.max + 1) ∧
    (applySeq (List.replicate k true) s).moving = false ∧
    (applySeq (List.replicate k true) s).max = s.max := by
  induction k with
  | zero =>
    intro s h1 h2 h3 h4
    refine ⟨?_, h1, rfl⟩
    show s.cur = (s.cur + ((0 : Nat) : Int)) % (s.max + 1)
    rw [show s.cur + ((0 : Nat) : Int) = s.cur from by push_cast; ring,
      Int.emod_eq_of_lt h3 (by omega)]
  | succ k ih =>
    intro s h1 h2 h3 h4
    have hrep : List.replicate (k + 1) true = true :: List.replicate k true :=
      List.replicate_succ true k
    have hstep : applySeq (List.replicate (k + 1) true) s
        = applySeq (List.replicate k true) (stepAwait true s) := by
      rw [hrep]; rfl
    rw [hstep]
    have hb := stepAwait_cur_bounds true s h3 h4
    have hx := stepAwait_max true s
    obtain ⟨r1, r2, r3⟩ := ih (stepAwait true s) (stepAwait_moving true s)
      (by rw [hx]; omega) hb.1 (by rw [hx]; exact hb.2)
    refine ⟨?_, r2, by rw [r3, hx]⟩
    rw [r1, hx, stepAwait_cur true s h1 h2 h3 h4, if_pos rfl,
      Carousel.emod_add_left_cancel]
    have harith : s.cur + 1 + (k : Int) = s.cur + ((k + 1 : Nat) : Int) := by
      push_cast; ring
    rw [harith]

theorem applySeq_replicate_false (k : Nat) : ∀ (s : State),
    s.moving = false → 1 ≤ s.max → 0 ≤ s.cur → s.cur ≤ s.max →
    (applySeq (List.replicate k false) s).cur = (s.cur - (k : Int)) % (s.max + 1) ∧
    (applySeq (List.replicate k false) s).moving = false ∧
    (applySeq (List.replicate k false) s).max = s.max := by
  induction k with
  | zero =>
    intro s h1 h2 h3 h4
    refine ⟨?_, h1, rfl⟩
    show s.cur = (s.cur - ((0 : Nat) : Int)) % (s.max + 1)
    rw [show s.cur - ((0 : Nat) : Int) = s.cur from by push_cast; ring,
      Int.emod_eq_of_lt h3 (by omega)]
  | succ k ih =>
    intro s h1 h2 h3 h4
    have hrep : List.replicate (k + 1) false = false :: List.replicate k false :=
      List.replicate_succ false k
    have hstep : applySeq (List.replicate (k + 1) false) s
        = applySeq (List.replicate k false) (stepAwait false s) := by
      rw [hrep]; rfl
    rw [hstep]
    have hb := stepAwait_cur_bounds false s h3 h4
    have hx := stepAwait_max false s
    obtain ⟨r1, r2, r3⟩ := ih (stepAwait false s) (stepAwait_moving false s)
      (by rw [hx]; omega) hb.1 (by rw [hx]; exact hb.2)
    refine ⟨?_, r2, by rw [r3, hx]⟩
    rw [r1, hx, stepAwait_cur false s h1 h2 h3 h4,
      if_neg (by exact Bool.false_ne_true), Carousel.emod_sub_left_cancel]
    have harith : s.cur + -1 - (k : Int) = s.cur - ((k + 1 : Nat) : Int) := by
      push_cast; ring
    rw [harith]

/-- C9: for max ≥ 1 and any finite sequence of awaited fwd/back steps, cur
stays within [0, max] after every step, and k fwd steps followed by k back
steps return cur to its original value. -/
theorem C9_fwd_back_cancel (s : State)
    (hmv : s.moving = false) (hm : 1 ≤ s.max)
    (h0 : 0 ≤ s.cur) (h1 : s.cur ≤ s.max) :
    (∀ l : List Bool, 0 ≤ (applySeq l s).cur ∧ (applySeq l s).cur ≤ s.max) ∧
    (∀ k : Nat,
      (applySeq (List.replicate k true ++ List.replicate k false) s).cur = s.cur) := by
  constructor
  · intro l
    have h := applySeq_inv l s hmv hm h0 h1
    exact ⟨h.2.2.1, h.2.2.2⟩
  · intro k
    have hsplit : applySeq (List.replicate k true ++ List.replicate k false) s
        = applySeq (List.replicate k false) (applySeq (List.replicate k true) s) := by
      simp [applySeq, List.foldl_append]
    rw [hsplit]
    obtain ⟨hc1, hm1, hx1⟩ := applySeq_replicate_true k s hmv hm h0 h1
    have hb1 : 0 ≤ (applySeq (List.replicate k true) s).cur := by
      rw [hc1]
      exact Int.emod_nonneg _ (by omega)
    have hb2 : (applySeq (List.replicate k true) s).cur
        ≤ (applySeq (List.replicate k true) s).max := by
      rw [hc1, hx1]
      have := Int.emod_lt_of_pos (s.cur + (k : Int))
        (show (0 : Int) < s.max + 1 from by omega)
      omega
    obtain ⟨hc2, hm2, hx2⟩ := applySeq_replicate_false k
      (applySeq (List.replicate k true) s) hm1 (by rw [hx1]; omega) hb1 hb2
    rw [hc2, hc1, hx1, Carousel.emod_sub_left_cancel,
      show s.cur + (k : Int) - (k : Int) = s.cur from by ring,
      Int.emod_eq_of_lt h0 (by omega)]

def sC9 : State :=
  { max := 2, visible := 1, cur := 1, prev := 0, next := 2, dir := 1,
    moving := false, duration := 250, timingFunction := "ease-in-out",
    defaultDuration := 250, defaultTimingFunction := "ease-in-out",
    transition := true, events := [] }

theorem C9_fwd_back_cancel_witness :
    (0 ≤ (applySeq [true, true, true, false] sC9).cur ∧
      (applySeq [true, true, true, false] sC9).cur ≤ sC9.max) ∧
    (applySeq (List.replicate 2 true ++ List.replicate 2 false) sC9).cur
      = sC9.cur :=
  ⟨(C9_fwd_back_cancel sC9 rfl (by decide) (by decide) (by decide)).1
      [true, true, true, false],
    (C9_fwd_back_cancel sC9 rfl (by decide) (by decide) (by decide)).2 2⟩

namespace CJ

theorem cjMove_cur (s : CJState) : (move s).cur = Carousel.curStep s.cur s.dir s.max := rfl

theorem cjMove_dir (s : CJState) : (move s).dir = s.dir := rfl

theorem cjMove_moving (s : CJState) : (move s).moving = s.moving := rfl

theorem cjMove_max (s : CJState) : (move s).max = s.max := rfl

end CJ

namespace Gesture

theorem pointerMove_pointerStart (x : Int) (g : GState) :
    (pointerMove x g).pointerStart = g.pointerStart := by
  unfold pointerMove
  split
  · dsimp only
    split <;> rfl
  · rfl

theorem pointerMove_cur (x : Int) (g : GState) :
    (pointerMove x g).c.cur = g.c.cur := by
  unfold pointerMove
  split
  · dsimp only
    split <;> rfl
  · rfl

theorem pointerMove_moving (x : Int) (g : GState) :
    (pointerMove x g).c.moving = g.c.moving := by
  unfold pointerMove
  split
  · dsimp only
    split <;> rfl
  · rfl

theorem pointerMove_max (x : Int) (g : GState) :
    (pointerMove x g).c.max = g.c.max := by
  unfold pointerMove
  split
  · dsimp only
    split <;> rfl
  · rfl

theorem pointerMove_curT_mono (x : Int) (g : GState) (h : g.curT = true) :
    (pointerMove x g).curT = true := by
  unfold pointerMove
  split
  · dsimp only
    split
    · exact h
    · rfl
  · exact h

theorem movesFold_pointerStart (moves : List Int) : ∀ (g : GState),
    (moves.foldl (fun st xi => pointerMove xi st) g).pointerStart
      = g.pointerStart := by
  induction moves with
  | nil => intro g; rfl
  | cons x l ih =>
    intro g
    rw [List.foldl_cons, ih, pointerMove_pointerStart]

theorem movesFold_cur (moves : List Int) : ∀ (g : GState),
    (moves.foldl (fun st xi => pointerMove xi st) g).c.cur = g.c.cur := by
  induction moves with
  | nil => intro g; rfl
  | cons x l ih =>
    intro g
    rw [List.foldl_cons, ih, pointerMove_cur]

theorem movesFold_moving (moves : List Int) : ∀ (g : GState),
    (moves.foldl (fun st xi => pointerMove xi st) g).c.moving = g.c.moving := by
  induction moves with
  | nil => intro g; rfl
  | cons x l ih =>
    intro g
    rw [List.foldl_cons, ih, pointerMove_moving]

theorem movesFold_max (moves : List Int) : ∀ (g : GState),
    (moves.foldl (fun st xi => pointerMove xi st) g).c.max = g.c.max := by
  induction moves with
  | nil => intro g; rfl
  | cons x l ih =>
    intro g
    rw [List.foldl_cons, ih, pointerMove_max]

theorem movesFold_curT_mono (moves : List Int) : ∀ (g : GState),
    g.curT = true →
    (moves.foldl (fun st xi => pointerMove xi st) g).curT = true := by
  induction moves with
  | nil => intro g h; exact h
  | cons x l ih =>
    intro g h
    rw [List.foldl_cons]
    exact ih _ (pointerMove_curT_mono x g h)

theorem movesFold_noop (x0 : Int) (moves : List Int) : ∀ (g : GState),
    g.pointerStart = some x0 →
    (∀ xi ∈ moves, xi = x0) →
    moves.foldl (fun st xi => pointerMove xi st) g = g := by
  induction moves with
  | nil => intro g _ _; rfl
  | cons x l ih =>
    intro g hps hall
    have hx : x = x0 := hall x (List.mem_cons_self x l)
    have hid : pointerMove x g = g := by
      unfold pointerMove
      split
      · dsimp only
        rw [if_pos (by rw [hps, hx]; show x0 - psVal (some x0) = 0; simp [psVal])]
      · rfl
    rw [List.foldl_cons, hid]
    exact ih g hps (fun xi hxi => hall xi (List.mem_cons_of_mem x hxi))

theorem movesFold_curT (x0 : Int) (hx0 : x0 ≠ 0) (moves : List Int) :
    ∀ (g : GState),
    g.pointerStart = some x0 →
    (∃ xi ∈ moves, xi ≠ x0) →
    (moves.foldl (fun st xi => pointerMove xi st) g).curT = true := by
  induction moves with
  | nil =>
    intro g _ hex
    obtain ⟨xi, hmem, _⟩ := hex
    exact absurd hmem (List.not_mem_nil xi)
  | cons x l ih =>
    intro g hps hex
    rw [List.foldl_cons]
    by_cases hx : x = x0
    · have hid : pointerMove x g = g := by
        unfold pointerMove
        split
        · dsimp only
          rw [if_pos (by rw [hps, hx]; show x0 - psVal (some x0) = 0; simp [psVal])]
        · rfl
      rw [hid]
      obtain ⟨xi, hmem, hne⟩ := hex
      rcases List.mem_cons.mp hmem with heq | hmem2
      · exact absurd (heq ▸ hne) (by subst hx; simp)
      · exact ih g hps ⟨xi, hmem2, hne⟩
    · have htr : truthy g.pointerStart = true := by
        rw [hps]
        simp [truthy, hx0]
      have hdelta : ¬(x - psVal g.pointerStart = 0) := by
        rw [hps]
        simp [psVal]
        omega
      have hset : (pointerMove x g).curT = true := by
        unfold pointerMove
        rw [if_pos htr]
        dsimp only
        rw [if_neg hdelta]
      exact movesFold_curT_mono l _ hset

end Gesture

namespace Gesture

theorem pointerUp_commit (xu x0 : Int) (gf : GState)
    (hpsf : gf.pointerStart = some x0) (hctT : gf.curT = true)
    (hmov : gf.c.moving = false) (h0 : 0 ≤ gf.c.cur) (h1 : gf.c.cur ≤ gf.c.max) :
    (pointerUp xu gf).c.cur =
      (if xu - x0 > 0 then (gf.c.cur + -1) % (gf.c.max + 1)
       else (gf.c.cur + 1) % (gf.c.max + 1)) ∧
    (pointerUp xu gf).c.dir = (if xu - x0 > 0 then -1 else 1) ∧
    (pointerUp xu gf).c.moving = false := by
  unfold pointerUp
  rw [if_pos hctT]
  dsimp only
  rw [hpsf, show psVal (some x0) = x0 from rfl]
  by_cases hd : xu - x0 > 0
  · simp only [if_pos hd]
    unfold CJ.back
    rw [if_neg (by simp [CJ.setTransition, hmov])]
    refine ⟨?_, ?_, ?_⟩
    · rw [CJ.cjMove_cur]
      show Carousel.curStep gf.c.cur (-1) gf.c.max = _
      exact Carousel.curStep_eq gf.c.cur gf.c.max (-1) h0 h1 (Or.inr rfl)
    · rw [CJ.cjMove_dir]
    · rw [CJ.cjMove_moving]
      show gf.c.moving = false
      exact hmov
  · simp only [if_neg hd]
    unfold CJ.fwd
    rw [if_neg (by simp [CJ.setTransition, hmov])]
    refine ⟨?_, ?_, ?_⟩
    · rw [CJ.cjMove_cur]
      show Carousel.curStep gf.c.cur 1 gf.c.max = _
      exact Carousel.curStep_eq gf.c.cur gf.c.max 1 h0 h1 (Or.inl rfl)
    · rw [CJ.cjMove_dir]
    · rw [CJ.cjMove_moving]
      show gf.c.moving = false
      exact hmov

end Gesture

def gC7 : GState :=
  { c := { max := 2, cur := 0, prev := 2, next := 1, dir := 1, moving := false,
           duration := 250, timingFunction := "ease-in-out",
           defaultDuration := 250, defaultTimingFunction := "ease-in-out",
           transition := true },
    pointerStart := none, curT := false }

/-- C7 counterexample: a drag session that moves to +40 and returns to the
start before release (down at 100, moves to 140 then back to 100, release
at 100) has release delta 0 — the claim says such a release commits
nothing — yet the code commits a fwd step (the commit test is the leftover
preview transform and the release-delta sign test treats 0 as the fwd
branch), changing cur from 0 to 1. -/
theorem C7_counterexample :
    gC7.c.cur = 0 ∧ (Gesture.session 100 [140, 100] 100 gC7).c.cur = 1 := by
  refine ⟨by decide, by decide⟩

/-- C7 amended: on release, if no move event of the session carried a
nonzero delta, nothing is committed and the whole state is unchanged; if
some move event carried a nonzero delta, exactly one step is committed,
chosen by the sign of the release delta: a positive release delta commits
back, and any other release delta — including 0 — commits fwd. -/
theorem C7_gesture_commit (g : GState) (x0 xu : Int) (moves : List Int)
    (hps0 : g.pointerStart = none) (hct : g.curT = false) (hx0 : x0 ≠ 0)
    (hmv : g.c.moving = false) (htr : g.c.transition = true)
    (hm : 1 ≤ g.c.max) (h0 : 0 ≤ g.c.cur) (h1 : g.c.cur ≤ g.c.max) :
    ((∀ xi ∈ moves, xi = x0) → Gesture.session x0 moves xu g = g) ∧
    ((∃ xi ∈ moves, xi ≠ x0) →
      (Gesture.session x0 moves xu g).c.cur =
        (if xu - x0 > 0 then (g.c.cur + -1) % (g.c.max + 1)
         else (g.c.cur + 1) % (g.c.max + 1)) ∧
      (Gesture.session x0 moves xu g).c.dir = (if xu - x0 > 0 then -1 else 1) ∧
      (Gesture.session x0 moves xu g).c.moving = false) := by
  constructor
  · intro hall
    have hfold := Gesture.movesFold_noop x0 moves (Gesture.pointerDown x0 g)
      (by rfl) hall
    show Gesture.pointerUp xu
        (moves.foldl (fun st xi => Gesture.pointerMove xi st)
          (Gesture.pointerDown x0 g)) = g
    rw [hfold]
    unfold Gesture.pointerUp Gesture.pointerDown
    dsimp only
    rw [if_neg (by simp [hct])]
    have hc : CJ.setTransition true (CJ.setTransition false g.c) = g.c := by
      show ({g.c with transition := true} : CJState) = g.c
      rw [← htr]
    rw [hc, ← hps0]
  · intro hex
    unfold Gesture.session
    have hfoldT := Gesture.movesFold_curT x0 hx0 moves (Gesture.pointerDown x0 g)
      (by rfl) hex
    have hpsf : (moves.foldl (fun st xi => Gesture.pointerMove xi st)
        (Gesture.pointerDown x0 g)).pointerStart = some x0 := by
      rw [Gesture.movesFold_pointerStart]
      rfl
    have hcur : (moves.foldl (fun st xi => Gesture.pointerMove xi st)
        (Gesture.pointerDown x0 g)).c.cur = g.c.cur := by
      rw [Gesture.movesFold_cur]
      rfl
    have hmov : (moves.foldl (fun st xi => Gesture.pointerMove xi st)
        (Gesture.pointerDown x0 g)).c.moving = false := by
      rw [Gesture.movesFold_moving]
      exact hmv
    have hmax : (moves.foldl (fun st xi => Gesture.pointerMove xi st)
        (Gesture.pointerDown x0 g)).c.max = g.c.max := by
      rw [Gesture.movesFold_max]
      rfl
    obtain ⟨r1, r2, r3⟩ := Gesture.pointerUp_commit xu x0
      (moves.foldl (fun st xi => Gesture.pointerMove xi st)
        (Gesture.pointerDown x0 g))
      hpsf hfoldT hmov (by rw [hcur]; exact h0) (by rw [hcur, hmax]; exact h1)
    refine ⟨?_, r2, r3⟩
    rw [r1, hcur, hmax]

def gC7w : GState :=
  { c := { max := 3, cur := 0, prev := 3, next := 1, dir := 1, moving := false,
           duration := 250, timingFunction := "ease-in-out",
           defaultDuration := 250, defaultTimingFunction := "ease-in-out",
           transition := true },
    pointerStart := none, curT := false }

theorem C7_gesture_commit_witness :
    ((∀ xi ∈ [140, 130], xi = (100 : Int)) →
      Gesture.session 100 [140, 130] 140 gC7w = gC7w) ∧
    ((∃ xi ∈ [140, 130], xi ≠ (100 : Int)) →
      (Gesture.session 100 [140, 130] 140 gC7w).c.cur =
        (if (140 : Int) - 100 > 0 then (gC7w.c.cur + -1) % (gC7w.c.max + 1)
         else (gC7w.c.cur + 1) % (gC7w.c.max + 1)) ∧
      (Gesture.session 100 [140, 130] 140 gC7w).c.dir =
        (if (140 : Int) - 100 > 0 then -1 else 1) ∧
      (Gesture.session 100 [140, 130] 140 gC7w).c.moving = false) :=
  C7_gesture_commit gC7w 100 140 [140, 130] rfl rfl (by decide) rfl rfl
    (by decide) (by decide) (by decide)
